import Mathlib

/-!
Verification of the generation-orchestration core of the Citra Ramayana
story-illustration app.

The embedding below follows the TypeScript source:

* the remote-service module (`parseAndValidateStoryResponse`,
  `generateStoryAndImages`, `continueStoryAndImages`, `generateVideoPrompt`,
  `editImage`);
* the session state machine in the root component (`handleGenerate`,
  `handleContinueStory`, `handleGenerateVideoPrompt`, `handleEditImage`
  callbacks over the `storyHistory` collection).

Remote calls are modelled by explicit outcome parameters (an oracle for the
per-scene image generator, an `Except` for single-shot calls), and the
JavaScript runtime values are modelled as follows: a JSON field that should be
a string array becomes `JsonField`; the `string | null | undefined` image slot
of a scene becomes `ImageState`; thrown errors become `Except` errors.
-/

namespace CitraRamayana

/-- Error taxonomy of the story-validation stage.  Each constructor stands for
one distinct thrown message in `parseAndValidateStoryResponse`:
`malformedResponse` for "AI response was malformed and is missing required
story data.", `emptyGeneration` for "AI generated an empty story. Please try
again.", and `unparsableResponse` for the wrapper error thrown when
`JSON.parse` itself failed. -/
inductive StoryError where
  | malformedResponse
  | emptyGeneration
  | unparsableResponse
deriving DecidableEq

/-- The value found at a JSON field that is supposed to hold an array of
strings.  `missing` covers an absent field, `notList` covers a present field
that is falsy or fails `Array.isArray` — the source treats all of these the
same way (`!parsed.storyParagraphs || !Array.isArray(parsed.storyParagraphs)`),
so they are collapsed into two non-list constructors. -/
inductive JsonField where
  | missing
  | notList
  | list (xs : List String)
deriving DecidableEq

/-- A field is bad when it is not an array (missing, falsy, or non-array). -/
def JsonField.isBad : JsonField → Bool
  | .list _ => false
  | _ => true

/-- The object produced by `JSON.parse` on the remote response text, restricted
to the fields the validator inspects.  `storyTitle` is modelled as a plain
string (the validator never checks it; an absent title is modelled as `""`). -/
structure ParsedResponse where
  storyTitle : String
  storyParagraphs : JsonField
  imagePrompts : JsonField
deriving DecidableEq

/-- The `StoryGenerationResponse` interface from `types.ts`, as returned by a
successful validation. -/
structure StoryGenerationResponse where
  storyTitle : String
  storyParagraphs : List String
  imagePrompts : List String
deriving DecidableEq

/-- The validation half of `parseAndValidateStoryResponse` (source part_000
lines 26–44), applied to an already-parsed object: reject when either array
field is missing or not an array ("AI response was malformed"), then reject
when either array is empty ("AI generated an empty story"), then silently trim
both arrays to the smaller length when the lengths differ, and return the
(possibly trimmed) object. -/
def validateParsed (p : ParsedResponse) : Except StoryError StoryGenerationResponse :=
  match p.storyParagraphs, p.imagePrompts with
  | .list paragraphs, .list prompts =>
    if paragraphs.length = 0 ∨ prompts.length = 0 then
      .error .emptyGeneration
    else if paragraphs.length ≠ prompts.length then
      let minCount := min paragraphs.length prompts.length
      .ok ⟨p.storyTitle, paragraphs.take minCount, prompts.take minCount⟩
    else
      .ok ⟨p.storyTitle, paragraphs, prompts⟩
  | _, _ => .error .malformedResponse

/-- `parseAndValidateStoryResponse` (source part_000 lines 21–55) as a function
of the outcome of `JSON.parse` on the trimmed response text: `none` models a
parse exception (re-thrown as the "Could not understand the story structure"
error), `some p` models a successfully parsed object, which is then validated.
Every raw response string is covered, because the source function's behaviour
factors through exactly this parse outcome. -/
def parseAndValidateStoryResponse (parsed : Option ParsedResponse) :
    Except StoryError StoryGenerationResponse :=
  match parsed with
  | none => .error .unparsableResponse
  | some p => validateParsed p

/-- Shared characterisation of every successful validation: the two returned
lists have equal positive length. -/
theorem validateParsed_ok_lengths (p : ParsedResponse) (r : StoryGenerationResponse)
    (h : validateParsed p = Except.ok r) :
    r.storyParagraphs.length = r.imagePrompts.length ∧ 0 < r.storyParagraphs.length := by
  rcases p with ⟨t, ps, ips⟩
  cases ps with
  | missing => simp [validateParsed] at h
  | notList => simp [validateParsed] at h
  | list xs =>
    cases ips with
    | missing => simp [validateParsed] at h
    | notList => simp [validateParsed] at h
    | list ys =>
      simp only [validateParsed] at h
      split_ifs at h with h0 h1 <;> cases h <;>
        refine ⟨?_, ?_⟩ <;> (try simp only [List.length_take]) <;> omega

/-- C1: for every raw response (equivalently, every outcome of `JSON.parse` on
it), if `parseAndValidateStoryResponse` returns a result without throwing,
then the returned `storyParagraphs` and `imagePrompts` have equal length and
that length is positive. -/
theorem parse_validate_ok_lengths (parsed : Option ParsedResponse)
    (r : StoryGenerationResponse)
    (h : parseAndValidateStoryResponse parsed = Except.ok r) :
    r.storyParagraphs.length = r.imagePrompts.length ∧ 0 < r.storyParagraphs.length := by
  cases parsed with
  | none => simp [parseAndValidateStoryResponse] at h
  | some p => exact validateParsed_ok_lengths p r h

/-- Witness for C1 at a concrete parsed response. -/
theorem parse_validate_ok_lengths_witness :
    parseAndValidateStoryResponse (some ⟨"T", .list ["a"], .list ["b"]⟩) =
      Except.ok ⟨"T", ["a"], ["b"]⟩ ∧
    (StoryGenerationResponse.mk "T" ["a"] ["b"]).storyParagraphs.length =
        (StoryGenerationResponse.mk "T" ["a"] ["b"]).imagePrompts.length ∧
      0 < (StoryGenerationResponse.mk "T" ["a"] ["b"]).storyParagraphs.length :=
  ⟨rfl, parse_validate_ok_lengths (some ⟨"T", .list ["a"], .list ["b"]⟩) ⟨"T", ["a"], ["b"]⟩ rfl⟩

/-- C2: when both arrays parse, are non-empty and have different lengths `m ≠
n`, validation succeeds and both returned lists have length `min m n` and are
prefixes of the originals. -/
theorem truncation_law (p : ParsedResponse) (ps ips : List String)
    (hps : p.storyParagraphs = .list ps) (hips : p.imagePrompts = .list ips)
    (hm : 0 < ps.length) (hn : 0 < ips.length) (hne : ps.length ≠ ips.length) :
    ∃ r, parseAndValidateStoryResponse (some p) = Except.ok r ∧
      r.storyParagraphs.length = min ps.length ips.length ∧
      r.imagePrompts.length = min ps.length ips.length ∧
      r.storyParagraphs <+: ps ∧ r.imagePrompts <+: ips := by
  refine ⟨⟨p.storyTitle, ps.take (min ps.length ips.length),
    ips.take (min ps.length ips.length)⟩, ?_, ?_, ?_, ?_, ?_⟩
  · simp only [parseAndValidateStoryResponse, validateParsed, hps, hips]
    rw [if_neg (by omega), if_pos hne]
  · simp only [List.length_take]; omega
  · simp only [List.length_take]; omega
  · exact ⟨ps.drop (min ps.length ips.length), List.take_append_drop _ ps⟩
  · exact ⟨ips.drop (min ps.length ips.length), List.take_append_drop _ ips⟩

/-- Witness for C2 at a concrete mismatched response. -/
theorem truncation_law_witness :
    ∃ r, parseAndValidateStoryResponse
        (some ⟨"T", .list ["a", "b"], .list ["x"]⟩) = Except.ok r ∧
      r.storyParagraphs.length = min (["a", "b"] : List String).length (["x"] : List String).length ∧
      r.imagePrompts.length = min (["a", "b"] : List String).length (["x"] : List String).length ∧
      r.storyParagraphs <+: ["a", "b"] ∧ r.imagePrompts <+: ["x"] :=
  truncation_law ⟨"T", .list ["a", "b"], .list ["x"]⟩ ["a", "b"] ["x"]
    rfl rfl (by decide) (by decide) (by decide)

/-- C3 counterexample: a parsed response whose `storyParagraphs` array is
empty (while `imagePrompts` is non-empty) is rejected with the
empty-generation error ("AI generated an empty story"), not with the
malformed-response error — contradicting the claim that an empty array yields
the malformed-response failure and that the empty-generation error applies
only when both lists are empty. -/
theorem rejection_law_counterexample :
    parseAndValidateStoryResponse (some ⟨"T", .list [], .list ["a"]⟩) =
      Except.error .emptyGeneration ∧
    Except.error (α := StoryGenerationResponse) StoryError.emptyGeneration ≠
      Except.error StoryError.malformedResponse := by
  constructor
  · rfl
  · intro h
    cases h

/-- C3 amended: a parsed response with either array field missing or not
list-typed is rejected with the malformed-response error; a parsed response
whose fields are both lists but with either list empty is rejected with the
empty-generation error; in neither case does truncation (or any success)
occur. -/
theorem rejection_law_amended (p : ParsedResponse) :
    ((p.storyParagraphs.isBad = true ∨ p.imagePrompts.isBad = true) →
      parseAndValidateStoryResponse (some p) = Except.error .malformedResponse) ∧
    (∀ ps ips, p.storyParagraphs = .list ps → p.imagePrompts = .list ips →
      (ps.length = 0 ∨ ips.length = 0) →
      parseAndValidateStoryResponse (some p) = Except.error .emptyGeneration) := by
  constructor
  · intro hbad
    rcases p with ⟨t, ps, ips⟩
    cases ps <;> cases ips <;>
      simp_all [parseAndValidateStoryResponse, validateParsed, JsonField.isBad]
  · intro ps ips hps hips hempty
    simp only [parseAndValidateStoryResponse, validateParsed, hps, hips]
    rw [if_pos hempty]

/-- Witness for C3's amended theorem at concrete responses of both kinds. -/
theorem rejection_law_amended_witness :
    parseAndValidateStoryResponse (some ⟨"T", .missing, .list ["a"]⟩) =
      Except.error .malformedResponse ∧
    parseAndValidateStoryResponse (some ⟨"T", .list [], .list ["a"]⟩) =
      Except.error .emptyGeneration :=
  ⟨(rejection_law_amended ⟨"T", .missing, .list ["a"]⟩).1 (Or.inl rfl),
   (rejection_law_amended ⟨"T", .list [], .list ["a"]⟩).2 [] ["a"] rfl rfl (Or.inl rfl)⟩

/-! ## Generation pipelines (source part_000, `generateStoryAndImages` lines
247–295 and `continueStoryAndImages` lines 297–354)

The per-scene image generator is modelled by an oracle
`Nat → Nat → Option String` giving the outcome of each attempt (scene index,
attempt number): `some img` is a returned image, `none` a thrown failure. -/

/-- Outcome of one scene's image generation in the illustration loop:
how many calls to `generateImage` were made for the scene, and the image the
scene ends with (`none` when the scene failed). -/
structure SceneOutcome where
  attempts : Nat
  image : Option String
deriving DecidableEq

/-- One iteration of the illustration loop (source part_000 lines 272–288):
call `generateImage`; on failure (`.catch`) wait one second and call it again
exactly once; if the retry also throws, the outer catch records a failure. -/
def runScene (oracle : Nat → Nat → Option String) (i : Nat) : SceneOutcome :=
  match oracle i 0 with
  | some img => { attempts := 1, image := some img }
  | none =>
    match oracle i 1 with
    | some img => { attempts := 2, image := some img }
    | none => { attempts := 2, image := none }

/-- The illustration stage: the loop over scene indices `0..k-1`, in order,
producing the per-scene outcomes (each outcome is reported to the
`onImageGenerated` callback as it resolves). -/
def imageStage (oracle : Nat → Nat → Option String) (k : Nat) : List SceneOutcome :=
  (List.range k).map (runScene oracle)

/-- The `failedImageCount` accumulator: number of scenes whose attempt (with
its retry) failed. -/
def failedImageCount (outcomes : List SceneOutcome) : Nat :=
  outcomes.countP (fun o => o.image.isNone)

/-- Errors a pipeline invocation can throw: a story-stage validation error,
or the terminal "Failed to generate any images" error. -/
inductive PipelineError where
  | storyStage (e : StoryError)
  | allImagesFailed
deriving DecidableEq

/-- The observable output of a successful `generateStoryAndImages` run. -/
structure PipelineOutput where
  title : String
  paragraphs : List String
  imagePrompts : List String
  outcomes : List SceneOutcome
deriving DecidableEq

/-- The observable output of a successful `continueStoryAndImages` run (no
title). -/
structure ContinuationOutput where
  paragraphs : List String
  imagePrompts : List String
  outcomes : List SceneOutcome
deriving DecidableEq

/-- `generateStoryAndImages` (source part_000 lines 247–295): run the story
stage (whose remote response outcome is the `parsed` argument), then the
sequential illustration loop with one retry per scene, then throw the
all-images-failed error when `failedImageCount > 0 &&
failedImageCount === imagePrompts.length`. -/
def generateStoryAndImages (parsed : Option ParsedResponse)
    (oracle : Nat → Nat → Option String) : Except PipelineError PipelineOutput :=
  match parseAndValidateStoryResponse parsed with
  | .error e => .error (.storyStage e)
  | .ok r =>
    let outcomes := imageStage oracle r.imagePrompts.length
    let failed := failedImageCount outcomes
    if 0 < failed ∧ failed = r.imagePrompts.length then
      .error .allImagesFailed
    else
      .ok ⟨r.storyTitle, r.storyParagraphs, r.imagePrompts, outcomes⟩

/-- `continueStoryAndImages` (source part_000 lines 297–354): identical shape;
the existing story's paragraphs (`existingParagraphs`) only feed the remote
instruction text, and the loop and the all-failed check use the length of the
newly returned `imagePrompts` only. -/
def continueStoryAndImages (existingParagraphs : List String)
    (parsed : Option ParsedResponse)
    (oracle : Nat → Nat → Option String) : Except PipelineError ContinuationOutput :=
  match existingParagraphs, parseAndValidateStoryResponse parsed with
  | _, .error e => .error (.storyStage e)
  | _, .ok r =>
    let outcomes := imageStage oracle r.imagePrompts.length
    let failed := failedImageCount outcomes
    if 0 < failed ∧ failed = r.imagePrompts.length then
      .error .allImagesFailed
    else
      .ok ⟨r.storyParagraphs, r.imagePrompts, outcomes⟩

/-- C4: in the illustration stage, every scene index below `k` gets exactly
one recorded outcome (a failed scene does not stop subsequent scenes, and a
scene's outcome depends only on its own attempts); a scene whose first call
fails and whose retry succeeds ends with a ready image after exactly 2
attempts; a scene whose two calls both fail ends failed after exactly 2
attempts; and no scene is ever attempted more than twice. -/
theorem retry_bound (oracle : Nat → Nat → Option String) (k : Nat) :
    (imageStage oracle k).length = k ∧
    (∀ j, j < k → (imageStage oracle k)[j]? = some (runScene oracle j)) ∧
    (∀ i img, oracle i 0 = none → oracle i 1 = some img →
      runScene oracle i = { attempts := 2, image := some img }) ∧
    (∀ i, oracle i 0 = none → oracle i 1 = none →
      runScene oracle i = { attempts := 2, image := none }) ∧
    (∀ i, (runScene oracle i).attempts ≤ 2) := by
  refine ⟨by simp [imageStage], ?_, ?_, ?_, ?_⟩
  · intro j hj
    simp [imageStage, List.getElem?_map, List.getElem?_range, hj]
  · intro i img h0 h1
    simp [runScene, h0, h1]
  · intro i h0 h1
    simp [runScene, h0, h1]
  · intro i
    unfold runScene
    cases oracle i 0 <;> [skip; simp]
    cases oracle i 1 <;> simp

/-- A fixed concrete oracle for the retry-bound witness: scene 0 fails once
then succeeds on the retry, every other call fails. -/
def retryWitnessOracle : Nat → Nat → Option String := fun i a =>
  if i = 0 ∧ a = 1 then some "img" else none

/-- Witness for C4 at a concrete oracle with two scenes. -/
theorem retry_bound_witness :
    (imageStage retryWitnessOracle 2)[0]? = some (runScene retryWitnessOracle 0) ∧
    runScene retryWitnessOracle 0 = { attempts := 2, image := some "img" } ∧
    runScene retryWitnessOracle 1 = { attempts := 2, image := none } :=
  ⟨(retry_bound retryWitnessOracle 2).2.1 0 (by decide),
   (retry_bound retryWitnessOracle 2).2.2.1 0 "img" rfl rfl,
   (retry_bound retryWitnessOracle 2).2.2.2.1 1 rfl rfl⟩

/-- Membership characterisation of the illustration stage. -/
theorem mem_imageStage (oracle : Nat → Nat → Option String) (k : Nat)
    (o : SceneOutcome) :
    o ∈ imageStage oracle k ↔ ∃ i, i < k ∧ o = runScene oracle i := by
  simp only [imageStage, List.mem_map, List.mem_range]
  constructor
  · rintro ⟨i, hi, rfl⟩
    exact ⟨i, hi, rfl⟩
  · rintro ⟨i, hi, rfl⟩
    exact ⟨i, hi, rfl⟩

/-- C5: for every pipeline invocation whose story stage validates (which
forces at least one scene): if every scene's image generation ends failed
after its retry, both the new-story pipeline and the continuation pipeline
throw the all-images-failed error; if at least one scene ends with an image,
both complete successfully; and the continuation pipeline's check counts only
the newly returned scenes — it is the same for every pre-existing paragraph
list. -/
theorem all_fail_termination (parsed : Option ParsedResponse)
    (oracle : Nat → Nat → Option String) (r : StoryGenerationResponse)
    (h : parseAndValidateStoryResponse parsed = Except.ok r) :
    1 ≤ r.imagePrompts.length ∧
    ((∀ i, i < r.imagePrompts.length → (runScene oracle i).image = none) →
      generateStoryAndImages parsed oracle = .error .allImagesFailed ∧
      ∀ existing, continueStoryAndImages existing parsed oracle =
        .error .allImagesFailed) ∧
    (∀ i, i < r.imagePrompts.length → (runScene oracle i).image ≠ none →
      (∃ out, generateStoryAndImages parsed oracle = .ok out) ∧
      ∀ existing, ∃ out, continueStoryAndImages existing parsed oracle = .ok out) := by
  have hlen : 1 ≤ r.imagePrompts.length := by
    cases parsed with
    | none => simp [parseAndValidateStoryResponse] at h
    | some p =>
      have := validateParsed_ok_lengths p r h
      omega
  refine ⟨hlen, ?_, ?_⟩
  · intro hall
    have hcount : failedImageCount (imageStage oracle r.imagePrompts.length) =
        r.imagePrompts.length := by
      have : (imageStage oracle r.imagePrompts.length).countP
          (fun o => o.image.isNone) = (imageStage oracle r.imagePrompts.length).length := by
        rw [List.countP_eq_length]
        intro o ho
        obtain ⟨i, hi, rfl⟩ := (mem_imageStage oracle _ o).mp ho
        simp [hall i hi]
      simpa [failedImageCount, imageStage] using this
    constructor
    · simp only [generateStoryAndImages, h]
      rw [if_pos ⟨by omega, hcount⟩]
    · intro existing
      simp only [continueStoryAndImages, h]
      rw [if_pos ⟨by omega, hcount⟩]
  · intro i hi hsucc
    have hne : failedImageCount (imageStage oracle r.imagePrompts.length) ≠
        r.imagePrompts.length := by
      intro heq
      have hmem : runScene oracle i ∈ imageStage oracle r.imagePrompts.length :=
        (mem_imageStage oracle _ _).mpr ⟨i, hi, rfl⟩
      have hall : ∀ o ∈ imageStage oracle r.imagePrompts.length,
          (o.image.isNone : Bool) := by
        rw [← List.countP_eq_length]
        simpa [failedImageCount, imageStage] using heq
      have := hall _ hmem
      rw [Option.isNone_iff_eq_none] at this
      exact hsucc this
    have hcond : ¬(0 < failedImageCount (imageStage oracle r.imagePrompts.length) ∧
        failedImageCount (imageStage oracle r.imagePrompts.length) =
          r.imagePrompts.length) := by
      intro hc
      exact hne hc.2
    constructor
    · refine ⟨⟨r.storyTitle, r.storyParagraphs, r.imagePrompts,
        imageStage oracle r.imagePrompts.length⟩, ?_⟩
      simp only [generateStoryAndImages, h]
      rw [if_neg hcond]
    · intro existing
      refine ⟨⟨r.storyParagraphs, r.imagePrompts,
        imageStage oracle r.imagePrompts.length⟩, ?_⟩
      simp only [continueStoryAndImages, h]
      rw [if_neg hcond]

/-- Witness for C5 at a concrete validated response with two scenes, an oracle
under which scene 0 succeeds immediately. -/
theorem all_fail_termination_witness :
    parseAndValidateStoryResponse
        (some ⟨"T", .list ["a", "b"], .list ["x", "y"]⟩) =
      Except.ok ⟨"T", ["a", "b"], ["x", "y"]⟩ ∧
    (∃ out, generateStoryAndImages
        (some ⟨"T", .list ["a", "b"], .list ["x", "y"]⟩)
        (fun _ _ => some "img") = .ok out) :=
  ⟨rfl,
   ((all_fail_termination (some ⟨"T", .list ["a", "b"], .list ["x", "y"]⟩)
      (fun _ _ => some "img") ⟨"T", ["a", "b"], ["x", "y"]⟩ rfl).2.2 0 (by decide)
      (by decide)).1⟩

/-! ## Story session state machine (source part_001, the root component)

The `storyHistory` state is a list of `StoryResult`.  The orchestrator
callbacks and follow-up handlers are embedded as pure functions from the
collection to the new collection; remote-call outcomes are explicit `Except`
arguments. -/

/-- The `image` slot of a scene (`string | null | undefined` in `types.ts`):
`loading` is `undefined` (generation in flight), `failed` is `null`
(generation failed), `ready` holds the data URL. -/
inductive ImageState where
  | loading
  | failed
  | ready (data : String)
deriving DecidableEq

/-- JS truthiness of the image slot, as used by the `!scene.image` guards:
only a non-empty data string is truthy. -/
def ImageState.isTruthy : ImageState → Bool
  | .ready img => !(img == "")
  | _ => false

/-- The assignment `scene.image = image` performed by the image callbacks,
where `image : string | null` is the per-scene pipeline result. -/
def imageStateOfResult : Option String → ImageState
  | some img => .ready img
  | none => .failed

/-- The `Scene` interface from `types.ts`.  Absent optional fields are the
defaults. -/
structure Scene where
  paragraph : String
  imagePrompt : String
  image : ImageState
  videoPrompt : Option String := none
  isVideoPromptLoading : Bool := false
  isRegenerating : Bool := false
deriving DecidableEq

/-- The continuation policy of a story (`storyMode`). -/
inductive StoryMode where
  | conclude
  | extend
deriving DecidableEq

/-- The `StoryResult` interface from `types.ts`: one story version. -/
structure StoryResult where
  id : Nat
  title : String
  scenes : List Scene
  storyMode : StoryMode
  isLoading : Bool
deriving DecidableEq

/-- The scene placeholders built by the story-produced callbacks:
`paragraphs.map((p, i) => ({ paragraph: p, imagePrompt: imagePrompts[i],
image: undefined }))`, traversing both lists in step. -/
def mkScenes : List String → List String → List Scene
  | [], _ => []
  | p :: ps, prompts =>
    { paragraph := p, imagePrompt := prompts.headD "", image := .loading } ::
      mkScenes ps prompts.tail

/-- The `prev.map((x, index) => index !== k ? x : g(x))` update pattern used by
the index-targeted state mutations. -/
def updateAt (g : α → α) : Nat → List α → List α
  | _, [] => []
  | 0, a :: as => g a :: as
  | n + 1, a :: as => a :: updateAt g n as

/-- The `onStoryGenerated` callback of `handleGenerate` (source part_001 lines
86–99): replace, in every story whose id matches, the title and the scene
list (placeholders with pending images); leave every other story untouched. -/
def applyStoryGenerated (storyId : Nat) (title : String)
    (paragraphs imagePrompts : List String) (hist : List StoryResult) :
    List StoryResult :=
  hist.map fun story =>
    if story.id = storyId then
      { story with title := title, scenes := mkScenes paragraphs imagePrompts }
    else story

/-- The scene-image write of `onImageGenerated` (source part_001 lines
101–110): copy the scene list and, when the index is in bounds
(`if (newScenes[imgIndex])`), store the result in that scene's image slot;
otherwise leave the story as it was. -/
def setSceneImage (image : Option String) (imgIndex : Nat)
    (story : StoryResult) : StoryResult :=
  match story.scenes[imgIndex]? with
  | some scene =>
    { story with scenes := story.scenes.set imgIndex ({ scene with image := imageStateOfResult image }) }
  | none => story

/-- The `onImageGenerated` callback of `handleGenerate`: apply the scene-image
write to every story whose id matches. -/
def applyImageGenerated (storyId : Nat) (image : Option String) (imgIndex : Nat)
    (hist : List StoryResult) : List StoryResult :=
  hist.map fun story =>
    if story.id = storyId then setSceneImage image imgIndex story else story

/-- The `onNewStoryPartsGenerated` callback of `handleContinueStory` (source
part_001 lines 173–188): append the new scene placeholders to the active
story's scene list and record the chosen continuation mode.  The captured
`newSceneCount` variable is set to `paragraphs.length`. -/
def appendNewScenes (activeIdx : Nat) (mode : StoryMode)
    (paragraphs imagePrompts : List String) (hist : List StoryResult) :
    List StoryResult :=
  updateAt (fun story =>
    { story with scenes := story.scenes ++ mkScenes paragraphs imagePrompts,
                 storyMode := mode }) activeIdx hist

/-- The scene-image write of `onNewImageGenerated` (source part_001 lines
190–200): compute `absoluteIndex = story.scenes.length - newSceneCount +
index` (JS number arithmetic, hence over `Int`), and store the image there
when that index denotes an existing scene (`if (newScenes[absoluteIndex])`);
otherwise leave the story as it was. -/
def setNewSceneImage (newSceneCount : Nat) (image : Option String) (index : Nat)
    (story : StoryResult) : StoryResult :=
  let absoluteIndex : Int :=
    (story.scenes.length : Int) - (newSceneCount : Int) + (index : Int)
  if absoluteIndex < 0 then story
  else
    match story.scenes[absoluteIndex.toNat]? with
    | some scene =>
      { story with scenes := story.scenes.set absoluteIndex.toNat ({ scene with image := imageStateOfResult image }) }
    | none => story

/-- The `onNewImageGenerated` callback of `handleContinueStory`: apply the
relative-index scene-image write to the story at the active index. -/
def applyNewImage (activeIdx newSceneCount : Nat) (image : Option String)
    (index : Nat) (hist : List StoryResult) : List StoryResult :=
  updateAt (setNewSceneImage newSceneCount image index) activeIdx hist

/-- `updateAt` preserves length. -/
theorem length_updateAt (g : α → α) (k : Nat) (l : List α) :
    (updateAt g k l).length = l.length := by
  induction l generalizing k with
  | nil => simp [updateAt]
  | cons a as ih =>
    cases k with
    | zero => simp [updateAt]
    | succ n => simp [updateAt, ih]

/-- `updateAt` leaves every other index unchanged. -/
theorem getElem?_updateAt_ne (g : α → α) (k j : Nat) (l : List α)
    (h : j ≠ k) : (updateAt g k l)[j]? = l[j]? := by
  induction l generalizing k j with
  | nil => simp [updateAt]
  | cons a as ih =>
    cases k with
    | zero =>
      cases j with
      | zero => exact absurd rfl h
      | succ m => simp [updateAt]
    | succ n =>
      cases j with
      | zero => simp [updateAt]
      | succ m =>
        simp only [updateAt, List.getElem?_cons_succ]
        exact ih n m (fun hc => h (by omega))

/-- `updateAt` applies the update at the targeted index. -/
theorem getElem?_updateAt_self (g : α → α) (k : Nat) (l : List α) :
    (updateAt g k l)[k]? = (l[k]?).map g := by
  induction l generalizing k with
  | nil => simp [updateAt]
  | cons a as ih =>
    cases k with
    | zero => simp [updateAt]
    | succ n => simpa [updateAt] using ih n

/-- `mkScenes` produces one placeholder per paragraph. -/
theorem length_mkScenes (ps prompts : List String) :
    (mkScenes ps prompts).length = ps.length := by
  induction ps generalizing prompts with
  | nil => rfl
  | cons p ps ih => simp [mkScenes, ih]

/-- Elementwise content of the scene placeholders. -/
theorem getElem?_mkScenes (ps prompts : List String) (t : Nat)
    (ht : t < ps.length) :
    (mkScenes ps prompts)[t]? =
      some { paragraph := ps.getD t "", imagePrompt := prompts.getD t "",
             image := .loading } := by
  induction ps generalizing prompts t with
  | nil => simp at ht
  | cons p ps ih =>
    cases t with
    | zero =>
      cases prompts <;> simp [mkScenes]
    | succ n =>
      have hn : n < ps.length := by simpa using ht
      cases prompts with
      | nil => simpa [mkScenes] using ih [] n hn
      | cons q qs => simpa [mkScenes] using ih qs n hn

/-- The first state write of `handleGenerateVideoPrompt` (source part_001
lines 279–284): mark the scene's video prompt as loading and reset its
`videoPrompt` to `undefined`.  The source has no bounds check here (the entry
guard has already dereferenced the scene), so the out-of-bounds branch is
unreachable when called from the handler. -/
def startVideoScene (sceneIndex : Nat) (story : StoryResult) : StoryResult :=
  match story.scenes[sceneIndex]? with
  | some scene =>
    { story with scenes := story.scenes.set sceneIndex ({ scene with isVideoPromptLoading := true, videoPrompt := none }) }
  | none => story

/-- The success write of `handleGenerateVideoPrompt` (source part_001 lines
298–303): store the returned prompt and clear the loading flag. -/
def finishVideoSceneOk (sceneIndex : Nat) (vp : String) (story : StoryResult) :
    StoryResult :=
  match story.scenes[sceneIndex]? with
  | some scene =>
    { story with scenes := story.scenes.set sceneIndex ({ scene with videoPrompt := some vp, isVideoPromptLoading := false }) }
  | none => story

/-- The failure write of `handleGenerateVideoPrompt` (source part_001 lines
306–311): clear the loading flag only. -/
def finishVideoSceneErr (sceneIndex : Nat) (story : StoryResult) : StoryResult :=
  match story.scenes[sceneIndex]? with
  | some scene =>
    { story with scenes := story.scenes.set sceneIndex ({ scene with isVideoPromptLoading := false }) }
  | none => story

/-- The collection state while the video-prompt remote call is in flight. -/
def videoPromptLoadingState (activeIdx sceneIndex : Nat)
    (hist : List StoryResult) : List StoryResult :=
  updateAt (startVideoScene sceneIndex) activeIdx hist

/-- `handleGenerateVideoPrompt` (source part_001 lines 274–314) as a function
of the remote outcome: guard on an existing scene with a truthy image, set the
loading state, then on success store the prompt and on failure clear the
loading flag and surface the error message.  Returns the final collection and
the surfaced error (`setError` argument), if any. -/
def handleGenerateVideoPrompt (activeIdx sceneIndex : Nat)
    (remote : Except String String) (hist : List StoryResult) :
    List StoryResult × Option String :=
  match hist[activeIdx]? with
  | none => (hist, none)
  | some currentStory =>
    match currentStory.scenes[sceneIndex]? with
    | none => (hist, none)
    | some scene =>
      if scene.image.isTruthy then
        let hist1 := videoPromptLoadingState activeIdx sceneIndex hist
        match remote with
        | .ok vp =>
          (updateAt (finishVideoSceneOk sceneIndex vp) activeIdx hist1, none)
        | .error msg =>
          (updateAt (finishVideoSceneErr sceneIndex) activeIdx hist1, some msg)
      else (hist, none)

/-- The success write of `handleEditImage` (source part_001 lines 346–351):
replace the scene's image with the edited one.  The source writes the image
into the existing scene object at that index; the observable collection state
is the scene list with the image slot replaced at `sceneIndex`. -/
def editSceneImage (sceneIndex : Nat) (newImage : String) (story : StoryResult) :
    StoryResult :=
  match story.scenes[sceneIndex]? with
  | some scene =>
    { story with scenes := story.scenes.set sceneIndex ({ scene with image := .ready newImage }) }
  | none => story

/-- `handleEditImage` (source part_001 lines 326–360) as a function of the
remote outcome: guard on a non-empty instruction and an existing scene with a
truthy image; on success write the edited image into the active story at the
edited index; on failure leave the collection untouched and surface the error
message. -/
def handleEditImage (activeIdx editingSceneIndex : Nat) (editPrompt : String)
    (remote : Except String String) (hist : List StoryResult) :
    List StoryResult × Option String :=
  if editPrompt = "" then (hist, none)
  else
    match hist[activeIdx]? with
    | none => (hist, none)
    | some currentStory =>
      match currentStory.scenes[editingSceneIndex]? with
      | none => (hist, none)
      | some scene =>
        if scene.image.isTruthy then
          match remote with
          | .ok newImage =>
            (updateAt (editSceneImage editingSceneIndex newImage) activeIdx hist, none)
          | .error msg => (hist, some msg)
        else (hist, none)

/-- An `updateAt` whose update fixes the targeted element changes nothing. -/
theorem updateAt_eq_of_fix (g : α → α) (k : Nat) (l : List α)
    (h : ∀ a, l[k]? = some a → g a = a) : updateAt g k l = l := by
  induction l generalizing k with
  | nil => simp [updateAt]
  | cons a as ih =>
    cases k with
    | zero =>
      simp only [updateAt]
      rw [h a (by simp)]
    | succ n =>
      simp only [updateAt, List.cons.injEq, true_and]
      exact ih n (fun b hb => h b (by simpa using hb))

/-- C9: each orchestrator callback is a whole-collection replace targeting one
version.  The two `handleGenerate` callbacks replace the collection preserving
its length, leave every version whose id differs from the target id entirely
unchanged, and write the target version as one whole value; the two
`handleContinueStory` callbacks do the same keyed by the active index. -/
theorem callback_frame (hist : List StoryResult) (storyId : Nat) (title : String)
    (paragraphs imagePrompts : List String) (image : Option String)
    (imgIndex aIdx newCount index : Nat) (mode : StoryMode) :
    (applyStoryGenerated storyId title paragraphs imagePrompts hist).length = hist.length ∧
    (∀ (k : Nat) (story : StoryResult), hist[k]? = some story → story.id ≠ storyId →
      (applyStoryGenerated storyId title paragraphs imagePrompts hist)[k]? = some story) ∧
    (∀ (k : Nat) (story : StoryResult), hist[k]? = some story → story.id = storyId →
      (applyStoryGenerated storyId title paragraphs imagePrompts hist)[k]? =
        some ({ story with title := title, scenes := mkScenes paragraphs imagePrompts })) ∧
    (applyImageGenerated storyId image imgIndex hist).length = hist.length ∧
    (∀ (k : Nat) (story : StoryResult), hist[k]? = some story → story.id ≠ storyId →
      (applyImageGenerated storyId image imgIndex hist)[k]? = some story) ∧
    (appendNewScenes aIdx mode paragraphs imagePrompts hist).length = hist.length ∧
    (∀ k, k ≠ aIdx →
      (appendNewScenes aIdx mode paragraphs imagePrompts hist)[k]? = hist[k]?) ∧
    (applyNewImage aIdx newCount image index hist).length = hist.length ∧
    (∀ k, k ≠ aIdx →
      (applyNewImage aIdx newCount image index hist)[k]? = hist[k]?) := by
  refine ⟨?_, ?_, ?_, ?_, ?_, ?_, ?_, ?_, ?_⟩
  · simp [applyStoryGenerated]
  · intro k story hk hne
    simp only [applyStoryGenerated, List.getElem?_map, hk, Option.map_some]
    simp [hne]
  · intro k story hk heq
    simp only [applyStoryGenerated, List.getElem?_map, hk, Option.map_some]
    simp [heq]
  · simp [applyImageGenerated]
  · intro k story hk hne
    simp only [applyImageGenerated, List.getElem?_map, hk, Option.map_some]
    simp [hne]
  · exact length_updateAt _ aIdx hist
  · intro k hk
    exact getElem?_updateAt_ne _ aIdx k hist hk
  · exact length_updateAt _ aIdx hist
  · intro k hk
    exact getElem?_updateAt_ne _ aIdx k hist hk

/-- Witness for C9 at a concrete two-version collection. -/
theorem callback_frame_witness :
    (applyStoryGenerated 7 "T" ["a"] ["x"]
      [⟨5, "A", [], .conclude, true⟩, ⟨7, "B", [], .conclude, true⟩])[0]? =
      some ⟨5, "A", [], .conclude, true⟩ ∧
    (appendNewScenes 1 .extend ["a"] ["x"]
      [⟨5, "A", [], .conclude, true⟩, ⟨7, "B", [], .conclude, true⟩])[0]? =
      some ⟨5, "A", [], .conclude, true⟩ :=
  ⟨(callback_frame [⟨5, "A", [], .conclude, true⟩, ⟨7, "B", [], .conclude, true⟩]
      7 "T" ["a"] ["x"] none 0 1 0 0 .extend).2.1 0
      ⟨5, "A", [], .conclude, true⟩ rfl (by decide),
   ((callback_frame [⟨5, "A", [], .conclude, true⟩, ⟨7, "B", [], .conclude, true⟩]
      7 "T" ["a"] ["x"] none 0 1 0 0 .extend).2.2.2.2.2.2.1 0 (by decide)).trans rfl⟩

/-- C10: an image-produced callback whose index falls outside the target
version's scene list leaves the whole collection untouched: the
`handleGenerate` image callback when the index is not below the matching
version's scene count, and the `handleContinueStory` image callback when the
computed absolute index does not denote an existing scene. -/
theorem oob_image_skip (hist : List StoryResult) (storyId : Nat)
    (image : Option String) (imgIndex aIdx newCount index : Nat) :
    ((∀ story ∈ hist, story.id = storyId → story.scenes.length ≤ imgIndex) →
      applyImageGenerated storyId image imgIndex hist = hist) ∧
    (∀ story, hist[aIdx]? = some story →
      ¬(0 ≤ (story.scenes.length : Int) - (newCount : Int) + (index : Int) ∧
        ((story.scenes.length : Int) - (newCount : Int) + (index : Int)).toNat <
          story.scenes.length) →
      applyNewImage aIdx newCount image index hist = hist) := by
  constructor
  · intro hall
    have : hist.map (fun story =>
        if story.id = storyId then setSceneImage image imgIndex story else story) =
        hist.map id := by
      apply List.map_congr_left
      intro story hmem
      by_cases hid : story.id = storyId
      · simp only [hid, if_true, id]
        have hlen : story.scenes[imgIndex]? = none := by
          apply List.getElem?_eq_none
          have := hall story hmem hid
          omega
        simp [setSceneImage, hlen]
      · simp [hid]
    simpa [applyImageGenerated, List.map_id] using this
  · intro story hstory hbad
    apply updateAt_eq_of_fix
    intro a ha
    rw [hstory] at ha
    cases ha
    simp only [setNewSceneImage]
    by_cases hneg :
        (story.scenes.length : Int) - (newCount : Int) + (index : Int) < 0
    · rw [if_pos hneg]
    · rw [if_neg hneg]
      have hnone : story.scenes[((story.scenes.length : Int) - (newCount : Int) +
          (index : Int)).toNat]? = none := by
        apply List.getElem?_eq_none
        omega
      rw [hnone]

/-- Witness for C10: a collection whose matching version has one scene,
written at index 5 by the plain image callback, and a continuation write whose
absolute index is negative. -/
theorem oob_image_skip_witness :
    applyImageGenerated 7 (some "img") 5
      [⟨7, "B", [⟨"p", "ip", .loading, none, false, false⟩], .conclude, true⟩] =
      [⟨7, "B", [⟨"p", "ip", .loading, none, false, false⟩], .conclude, true⟩] ∧
    applyNewImage 0 9 (some "img") 2
      [⟨7, "B", [⟨"p", "ip", .loading, none, false, false⟩], .conclude, true⟩] =
      [⟨7, "B", [⟨"p", "ip", .loading, none, false, false⟩], .conclude, true⟩] :=
  ⟨(oob_image_skip [⟨7, "B", [⟨"p", "ip", .loading, none, false, false⟩], .conclude, true⟩]
      7 (some "img") 5 0 9 2).1 (by decide),
   (oob_image_skip [⟨7, "B", [⟨"p", "ip", .loading, none, false, false⟩], .conclude, true⟩]
      7 (some "img") 5 0 9 2).2
      ⟨7, "B", [⟨"p", "ip", .loading, none, false, false⟩], .conclude, true⟩ rfl
      (by decide)⟩

/-- Behaviour of the continuation image write when the captured scene count
does not exceed the scene list and the relative index is below it: the write
lands at `scenes.length - newSceneCount + index` and touches nothing else. -/
theorem setNewSceneImage_spec (newCount : Nat) (img : Option String) (index : Nat)
    (story : StoryResult) (hcnt : newCount ≤ story.scenes.length)
    (hidx : index < newCount) :
    (setNewSceneImage newCount img index story).scenes.length = story.scenes.length ∧
    (∀ (s : Scene), story.scenes[story.scenes.length - newCount + index]? = some s →
      (setNewSceneImage newCount img index story).scenes[story.scenes.length - newCount + index]? =
        some ({ s with image := imageStateOfResult img })) ∧
    (∀ (t : Nat), t ≠ story.scenes.length - newCount + index →
      (setNewSceneImage newCount img index story).scenes[t]? = story.scenes[t]?) := by
  have hneg : ¬ ((story.scenes.length : Int) - (newCount : Int) + (index : Int) < 0) := by
    omega
  have htn : ((story.scenes.length : Int) - (newCount : Int) + (index : Int)).toNat =
      story.scenes.length - newCount + index := by omega
  have hin : story.scenes.length - newCount + index < story.scenes.length := by omega
  obtain ⟨s0, hs0⟩ :
      ∃ s0, story.scenes[story.scenes.length - newCount + index]? = some s0 := by
    rw [List.getElem?_eq_getElem hin]
    exact ⟨_, rfl⟩
  refine ⟨?_, ?_, ?_⟩
  · simp only [setNewSceneImage, if_neg hneg, htn, hs0]
    simp
  · intro s hs
    rw [hs0] at hs
    cases hs
    simp only [setNewSceneImage, if_neg hneg, htn, hs0]
    rw [List.getElem?_set_self]
    omega
  · intro t ht
    simp only [setNewSceneImage, if_neg hneg, htn, hs0]
    exact List.getElem?_set_ne (fun hc => ht hc.symm)

/-- C6: continuing the story at the active index, holding `j` scenes, with a
continuation result of `p` paragraphs and their prompts, appends `p` new
scenes: the updated version has `j + p` scenes whose first `j` are the old
ones and whose last `p` are placeholders populated from the result; and the
subsequent image callback for relative index `i < p` writes exactly the scene
at absolute index `j + i`. -/
theorem continuation_append (hist : List StoryResult) (aIdx : Nat)
    (story0 : StoryResult) (hstory : hist[aIdx]? = some story0)
    (paragraphs imagePrompts : List String) (mode : StoryMode)
    (i : Nat) (hip : i < paragraphs.length) (img : Option String) :
    ∃ story1,
      (appendNewScenes aIdx mode paragraphs imagePrompts hist)[aIdx]? = some story1 ∧
      story1.scenes.length = story0.scenes.length + paragraphs.length ∧
      story1.scenes.take story0.scenes.length = story0.scenes ∧
      story1.scenes.drop story0.scenes.length = mkScenes paragraphs imagePrompts ∧
      (∀ (t : Nat), t < paragraphs.length →
        (mkScenes paragraphs imagePrompts)[t]? =
          some { paragraph := paragraphs.getD t "",
                 imagePrompt := imagePrompts.getD t "", image := .loading }) ∧
      ∃ story2,
        (applyNewImage aIdx paragraphs.length img i
            (appendNewScenes aIdx mode paragraphs imagePrompts hist))[aIdx]? =
          some story2 ∧
        story2.scenes.length = story1.scenes.length ∧
        (∀ (s : Scene), story1.scenes[story0.scenes.length + i]? = some s →
          story2.scenes[story0.scenes.length + i]? =
            some ({ s with image := imageStateOfResult img })) ∧
        (∀ (t : Nat), t ≠ story0.scenes.length + i →
          story2.scenes[t]? = story1.scenes[t]?) := by
  have h1 : (appendNewScenes aIdx mode paragraphs imagePrompts hist)[aIdx]? =
      some ({ story0 with
        scenes := story0.scenes ++ mkScenes paragraphs imagePrompts,
        storyMode := mode }) := by
    simp only [appendNewScenes]
    rw [getElem?_updateAt_self, hstory]
    rfl
  have hlen1 : ({ story0 with
      scenes := story0.scenes ++ mkScenes paragraphs imagePrompts,
      storyMode := mode } : StoryResult).scenes.length =
      story0.scenes.length + paragraphs.length := by
    simp [length_mkScenes]
  refine ⟨_, h1, hlen1, List.take_left _ _, List.drop_left _ _, ?_, ?_⟩
  · intro t ht
    exact getElem?_mkScenes paragraphs imagePrompts t ht
  · have h2 : (applyNewImage aIdx paragraphs.length img i
        (appendNewScenes aIdx mode paragraphs imagePrompts hist))[aIdx]? =
        some (setNewSceneImage paragraphs.length img i
          ({ story0 with
            scenes := story0.scenes ++ mkScenes paragraphs imagePrompts,
            storyMode := mode })) := by
      simp only [applyNewImage]
      rw [getElem?_updateAt_self, h1]
      rfl
    have hcnt : paragraphs.length ≤
        ({ story0 with
          scenes := story0.scenes ++ mkScenes paragraphs imagePrompts,
          storyMode := mode } : StoryResult).scenes.length := by
      rw [hlen1]; omega
    have spec := setNewSceneImage_spec paragraphs.length img i
      ({ story0 with
        scenes := story0.scenes ++ mkScenes paragraphs imagePrompts,
        storyMode := mode }) hcnt hip
    have hidx : ({ story0 with
        scenes := story0.scenes ++ mkScenes paragraphs imagePrompts,
        storyMode := mode } : StoryResult).scenes.length - paragraphs.length + i =
        story0.scenes.length + i := by
      rw [hlen1]; omega
    rw [hidx] at spec
    exact ⟨_, h2, spec.1, spec.2.1, spec.2.2⟩

/-- A concrete one-scene story for the continuation witness. -/
def storyCont : StoryResult :=
  { id := 3, title := "T",
    scenes := [⟨"p0", "ip0", .ready "i0", none, false, false⟩],
    storyMode := .extend, isLoading := false }

/-- Witness for C6 at a concrete one-scene story continued by two scenes. -/
theorem continuation_append_witness :
    ∃ story1,
      (appendNewScenes 0 .extend ["p1", "p2"] ["q1", "q2"] [storyCont])[0]? = some story1 ∧
      story1.scenes.length = storyCont.scenes.length + (["p1", "p2"] : List String).length ∧
      story1.scenes.take storyCont.scenes.length = storyCont.scenes ∧
      story1.scenes.drop storyCont.scenes.length = mkScenes ["p1", "p2"] ["q1", "q2"] ∧
      (∀ (t : Nat), t < (["p1", "p2"] : List String).length →
        (mkScenes ["p1", "p2"] ["q1", "q2"])[t]? =
          some { paragraph := (["p1", "p2"] : List String).getD t "",
                 imagePrompt := (["q1", "q2"] : List String).getD t "", image := .loading }) ∧
      ∃ story2,
        (applyNewImage 0 (["p1", "p2"] : List String).length (some "im") 1
            (appendNewScenes 0 .extend ["p1", "p2"] ["q1", "q2"] [storyCont]))[0]? =
          some story2 ∧
        story2.scenes.length = story1.scenes.length ∧
        (∀ (s : Scene), story1.scenes[storyCont.scenes.length + 1]? = some s →
          story2.scenes[storyCont.scenes.length + 1]? =
            some ({ s with image := imageStateOfResult (some "im") })) ∧
        (∀ (t : Nat), t ≠ storyCont.scenes.length + 1 →
          story2.scenes[t]? = story1.scenes[t]?) :=
  continuation_append [storyCont] 0 storyCont rfl ["p1", "p2"] ["q1", "q2"]
    .extend 1 (by decide) (some "im")

/-- A scene holding a ready image and an already-generated video prompt. -/
def sceneBefore : Scene :=
  { paragraph := "p", imagePrompt := "ip", image := .ready "img",
    videoPrompt := some "old", isVideoPromptLoading := false,
    isRegenerating := false }

/-- A one-scene story built on `sceneBefore`. -/
def storyBefore : StoryResult :=
  { id := 1, title := "T", scenes := [sceneBefore], storyMode := .conclude,
    isLoading := false }

/-- C7 counterexample: running the video-prompt action on a scene whose
`videoPrompt` was `some "old"`, with the remote call failing, leaves the scene
with `videoPrompt = none` — the handler resets the prompt to `undefined` when
it enters the loading state, so on failure the value is cleared rather than
left unchanged as the claim states. -/
theorem video_prompt_counterexample :
    sceneBefore.videoPrompt = some "old" ∧
    (handleGenerateVideoPrompt 0 0 (.error "boom") [storyBefore]).1 =
      [{ storyBefore with scenes := [{ sceneBefore with videoPrompt := none }] }] ∧
    ({ sceneBefore with videoPrompt := none } : Scene).videoPrompt ≠
      sceneBefore.videoPrompt := by
  refine ⟨rfl, ?_, by decide⟩
  decide

/-- C7 amended: for every video-prompt action on a scene with a truthy image,
the scene's loading flag is `true` while the remote call is in flight (with
the `videoPrompt` already reset to `undefined`), and afterwards the flag is
back to `false`; on success the `videoPrompt` is the returned text and no
error is surfaced; on failure the `videoPrompt` is cleared (it remains the
`undefined` set on entry, not its previous value) and the error message is
surfaced. -/
theorem video_prompt_action (hist : List StoryResult) (aIdx sceneIdx : Nat)
    (story : StoryResult) (scene : Scene)
    (h1 : hist[aIdx]? = some story) (h2 : story.scenes[sceneIdx]? = some scene)
    (h3 : scene.image.isTruthy = true) (remote : Except String String) :
    ((videoPromptLoadingState aIdx sceneIdx hist)[aIdx]?).bind
        (fun st => st.scenes[sceneIdx]?) =
      some ({ scene with isVideoPromptLoading := true, videoPrompt := none }) ∧
    (∀ (vp : String), remote = .ok vp →
      ((handleGenerateVideoPrompt aIdx sceneIdx remote hist).1[aIdx]?).bind
          (fun st => st.scenes[sceneIdx]?) =
        some ({ scene with isVideoPromptLoading := false, videoPrompt := some vp }) ∧
      (handleGenerateVideoPrompt aIdx sceneIdx remote hist).2 = none) ∧
    (∀ (msg : String), remote = .error msg →
      ((handleGenerateVideoPrompt aIdx sceneIdx remote hist).1[aIdx]?).bind
          (fun st => st.scenes[sceneIdx]?) =
        some ({ scene with isVideoPromptLoading := false, videoPrompt := none }) ∧
      (handleGenerateVideoPrompt aIdx sceneIdx remote hist).2 = some msg) := by
  have hidx : sceneIdx < story.scenes.length := (List.getElem?_eq_some.mp h2).1
  have hstart : (videoPromptLoadingState aIdx sceneIdx hist)[aIdx]? =
      some (startVideoScene sceneIdx story) := by
    simp only [videoPromptLoadingState]
    rw [getElem?_updateAt_self, h1]
    rfl
  have hstartEq : startVideoScene sceneIdx story =
      { story with
        scenes := story.scenes.set sceneIdx ({ scene with isVideoPromptLoading := true, videoPrompt := none }) } := by
    simp only [startVideoScene, h2]
  have hsetlen : sceneIdx < (story.scenes.set sceneIdx
      ({ scene with isVideoPromptLoading := true, videoPrompt := none })).length := by
    rw [List.length_set]
    exact hidx
  have hsetget : (story.scenes.set sceneIdx
      ({ scene with isVideoPromptLoading := true, videoPrompt := none }))[sceneIdx]? =
      some ({ scene with isVideoPromptLoading := true, videoPrompt := none }) := by
    rw [List.getElem?_set_self]
    exact hidx
  refine ⟨?_, ?_, ?_⟩
  · rw [hstart]
    show (startVideoScene sceneIdx story).scenes[sceneIdx]? = _
    rw [hstartEq]
    exact hsetget
  · rintro vp rfl
    have hfin : handleGenerateVideoPrompt aIdx sceneIdx (Except.ok vp) hist =
        (updateAt (finishVideoSceneOk sceneIdx vp) aIdx
          (videoPromptLoadingState aIdx sceneIdx hist), none) := by
      simp only [handleGenerateVideoPrompt, h1, h2, h3, if_true]
    rw [hfin]
    refine ⟨?_, rfl⟩
    show ((updateAt (finishVideoSceneOk sceneIdx vp) aIdx
        (videoPromptLoadingState aIdx sceneIdx hist))[aIdx]?).bind
        (fun st => st.scenes[sceneIdx]?) = _
    rw [getElem?_updateAt_self, hstart]
    show (finishVideoSceneOk sceneIdx vp (startVideoScene sceneIdx story)).scenes[sceneIdx]? = _
    rw [hstartEq]
    simp only [finishVideoSceneOk, hsetget]
    rw [List.getElem?_set_self]
    exact hsetlen
  · rintro msg rfl
    have hfin : handleGenerateVideoPrompt aIdx sceneIdx (Except.error msg) hist =
        (updateAt (finishVideoSceneErr sceneIdx) aIdx
          (videoPromptLoadingState aIdx sceneIdx hist), some msg) := by
      simp only [handleGenerateVideoPrompt, h1, h2, h3, if_true]
    rw [hfin]
    refine ⟨?_, rfl⟩
    show ((updateAt (finishVideoSceneErr sceneIdx) aIdx
        (videoPromptLoadingState aIdx sceneIdx hist))[aIdx]?).bind
        (fun st => st.scenes[sceneIdx]?) = _
    rw [getElem?_updateAt_self, hstart]
    show (finishVideoSceneErr sceneIdx (startVideoScene sceneIdx story)).scenes[sceneIdx]? = _
    rw [hstartEq]
    simp only [finishVideoSceneErr, hsetget]
    rw [List.getElem?_set_self]
    exact hsetlen

/-- Witness for C7's amended theorem at a concrete story, successful call. -/
theorem video_prompt_action_witness :
    ((handleGenerateVideoPrompt 0 0 (.ok "vp") [storyBefore]).1[0]?).bind
        (fun st => st.scenes[0]?) =
      some ({ sceneBefore with isVideoPromptLoading := false, videoPrompt := some "vp" }) ∧
    (handleGenerateVideoPrompt 0 0 (.ok "vp") [storyBefore]).2 = none :=
  (video_prompt_action [storyBefore] 0 0 storyBefore sceneBefore rfl rfl
    (by decide) (.ok "vp")).2.1 "vp" rfl

/-- C8: for every edit-image action whose guards pass (non-empty instruction,
existing scene with a truthy image): on remote success the scene's image is
replaced in place — the active version's scene list is the old list with only
the edited index rewritten — every other version is untouched and no error is
surfaced; on remote failure the whole collection is returned unchanged and the
error message is surfaced. -/
theorem edit_image_action (hist : List StoryResult) (aIdx sceneIdx : Nat)
    (editPrompt : String) (story : StoryResult) (scene : Scene)
    (hp : ¬ editPrompt = "") (h1 : hist[aIdx]? = some story)
    (h2 : story.scenes[sceneIdx]? = some scene)
    (h3 : scene.image.isTruthy = true) :
    (∀ (newImage : String),
      (handleEditImage aIdx sceneIdx editPrompt (.ok newImage) hist).1[aIdx]? =
        some ({ story with
          scenes := story.scenes.set sceneIdx ({ scene with image := .ready newImage }) }) ∧
      (∀ (k : Nat), k ≠ aIdx →
        (handleEditImage aIdx sceneIdx editPrompt (.ok newImage) hist).1[k]? = hist[k]?) ∧
      (handleEditImage aIdx sceneIdx editPrompt (.ok newImage) hist).2 = none) ∧
    (∀ (msg : String),
      handleEditImage aIdx sceneIdx editPrompt (.error msg) hist = (hist, some msg)) := by
  constructor
  · intro newImage
    have hok : handleEditImage aIdx sceneIdx editPrompt (Except.ok newImage) hist =
        (updateAt (editSceneImage sceneIdx newImage) aIdx hist, none) := by
      simp only [handleEditImage, hp, h1, h2, h3, if_false, if_true]
    rw [hok]
    refine ⟨?_, ?_, rfl⟩
    · show (updateAt (editSceneImage sceneIdx newImage) aIdx hist)[aIdx]? = _
      rw [getElem?_updateAt_self, h1]
      show some (editSceneImage sceneIdx newImage story) = _
      simp only [editSceneImage, h2]
    · intro k hk
      exact getElem?_updateAt_ne _ aIdx k hist hk
  · intro msg
    simp only [handleEditImage, hp, h1, h2, h3, if_false, if_true]

/-- Witness for C8 at a concrete story, both remote outcomes. -/
theorem edit_image_action_witness :
    (handleEditImage 0 0 "redder" (.ok "img2") [storyBefore]).1[0]? =
      some ({ storyBefore with
        scenes := storyBefore.scenes.set 0 ({ sceneBefore with image := .ready "img2" }) }) ∧
    handleEditImage 0 0 "redder" (.error "boom") [storyBefore] =
      ([storyBefore], some "boom") :=
  ⟨((edit_image_action [storyBefore] 0 0 "redder" storyBefore sceneBefore
      (by decide) rfl rfl (by decide)).1 "img2").1,
   (edit_image_action [storyBefore] 0 0 "redder" storyBefore sceneBefore
      (by decide) rfl rfl (by decide)).2 "boom"⟩

end CitraRamayana
